import Mathlib

/-
Verification of the client-side session manager and role-scoped query layer
of the lamela-pediatrics mobile client.

The session manager is embedded as an explicit event-step machine over the
published state record (session, user, loading) plus the bookkeeping the
source keeps implicitly (the mounted ref, the in-flight getSession call and
the in-flight profile fetches).  Each event corresponds to one atomic
segment of the source between suspension points:
  - Ev.initResolve s : the getSession().then continuation (src/unnamed/part_004 lines 28-39)
  - Ev.notify s      : the onAuthStateChange callback up to its await (lines 42-56)
  - Ev.fetchResolve  : the continuation of one loadUserProfile fetch (lines 64-83)
  - Ev.unmount       : the effect cleanup (lines 58-61)
The query layer is embedded as pure functions from in-memory tables to the
row lists the screens receive.
-/

namespace Clinic

/-- Role enumeration from src (types/database.ts, User.role). -/
inductive Role
  | admin
  | doctor
  | staff
  | parent
deriving DecidableEq

/-- User row from types/database.ts (interface User). -/
structure UserProfile where
  id : String
  email : String
  role : Role
  first_name : String
  last_name : String
  phone : Option String
  created_at : String
  updated_at : String
deriving DecidableEq

/-- Provider session, opaque except for the subject id the code reads as
session.user.id. -/
structure Session where
  userId : String
deriving DecidableEq

/-- State of the AuthProvider in src/unnamed/part_004: the three published
useState cells, the mounted ref, and the in-flight asynchronous work. -/
structure ProviderState where
  session : Option Session
  user : Option UserProfile
  loading : Bool
  mounted : Bool
  pendingInit : Bool
  pendingFetches : List (Nat × String)
  nextToken : Nat
  log : List String
deriving DecidableEq

/-- Events: each is one atomic continuation of the AuthProvider effect. -/
inductive Ev
  | initResolve (s : Option Session)
  | notify (s : Option Session)
  | fetchResolve (tok : Nat) (res : Except String UserProfile)
  | unmount

/-- One event step of the part_004 AuthProvider.  setSession, setUser and
setLoading are guarded by mounted.current exactly where the source guards
them; starting a profile fetch (the unguarded loadUserProfile call) is not.
A notify event can only occur while mounted, because the cleanup that clears
mounted also unsubscribes in the same synchronous block. -/
def step (st : ProviderState) (e : Ev) : ProviderState :=
  match e with
  | Ev.initResolve s =>
      if st.pendingInit then
        match s with
        | some sess =>
            if st.mounted then
              { st with pendingInit := false, session := some sess,
                        pendingFetches := st.pendingFetches ++ [(st.nextToken, sess.userId)],
                        nextToken := st.nextToken + 1 }
            else
              { st with pendingInit := false,
                        pendingFetches := st.pendingFetches ++ [(st.nextToken, sess.userId)],
                        nextToken := st.nextToken + 1 }
        | none =>
            if st.mounted then
              { st with pendingInit := false, session := none, loading := false }
            else
              { st with pendingInit := false }
      else st
  | Ev.notify s =>
      if st.mounted then
        match s with
        | some sess =>
            { st with session := some sess,
                      pendingFetches := st.pendingFetches ++ [(st.nextToken, sess.userId)],
                      nextToken := st.nextToken + 1 }
        | none => { st with session := none, user := none, loading := false }
      else st
  | Ev.fetchResolve tok res =>
      if st.pendingFetches.any (fun pr => pr.1 == tok) then
        match res with
        | Except.ok d =>
            if st.mounted then
              { st with pendingFetches := st.pendingFetches.filter (fun pr => pr.1 != tok),
                        user := some d, loading := false }
            else
              { st with pendingFetches := st.pendingFetches.filter (fun pr => pr.1 != tok) }
        | Except.error msg =>
            if st.mounted then
              { st with pendingFetches := st.pendingFetches.filter (fun pr => pr.1 != tok),
                        log := msg :: st.log, loading := false }
            else
              { st with pendingFetches := st.pendingFetches.filter (fun pr => pr.1 != tok),
                        log := msg :: st.log }
      else st
  | Ev.unmount => { st with mounted := false }

/-- Initial state: useState(null), useState(null), useState(true), the
mounted ref set true and the getSession call in flight. -/
def initState : ProviderState :=
  { session := none, user := none, loading := true, mounted := true,
    pendingInit := true, pendingFetches := [], nextToken := 0, log := [] }

/-- Run a whole interleaving from the initial state. -/
def run (es : List Ev) : ProviderState :=
  es.foldl step initState

/-- The published part of the state, what consumers of the context read. -/
def published (st : ProviderState) : Option Session × Option UserProfile × Bool :=
  (st.session, st.user, st.loading)

/-- Quiescence predicate for the loading flag: whenever no asynchronous work
is in flight and the provider is still mounted, loading has been cleared. -/
def Quiescent (st : ProviderState) : Prop :=
  st.mounted = true → st.pendingInit = false → st.pendingFetches = [] → st.loading = false

/-- State of the unguarded AuthProvider variant in src/contexts/AuthContext.tsx:
same shape but no mounted ref; cleanup only unsubscribes. -/
structure LegacyState where
  session : Option Session
  user : Option UserProfile
  loading : Bool
  subscribed : Bool
  pendingInit : Bool
  pendingFetches : List (Nat × String)
  nextToken : Nat
  log : List String
deriving DecidableEq

/-- One event step of the src/contexts/AuthContext.tsx AuthProvider: no
liveness guard on any continuation, so late continuations still write the
published cells after the cleanup ran. -/
def stepLegacy (st : LegacyState) (e : Ev) : LegacyState :=
  match e with
  | Ev.initResolve s =>
      if st.pendingInit then
        match s with
        | some sess =>
            { st with pendingInit := false, session := some sess,
                      pendingFetches := st.pendingFetches ++ [(st.nextToken, sess.userId)],
                      nextToken := st.nextToken + 1 }
        | none => { st with pendingInit := false, session := none, loading := false }
      else st
  | Ev.notify s =>
      if st.subscribed then
        match s with
        | some sess =>
            { st with session := some sess,
                      pendingFetches := st.pendingFetches ++ [(st.nextToken, sess.userId)],
                      nextToken := st.nextToken + 1 }
        | none => { st with session := none, user := none, loading := false }
      else st
  | Ev.fetchResolve tok res =>
      if st.pendingFetches.any (fun pr => pr.1 == tok) then
        match res with
        | Except.ok d =>
            { st with pendingFetches := st.pendingFetches.filter (fun pr => pr.1 != tok),
                      user := some d, loading := false }
        | Except.error msg =>
            { st with pendingFetches := st.pendingFetches.filter (fun pr => pr.1 != tok),
                      log := msg :: st.log, loading := false }
      else st
  | Ev.unmount => { st with subscribed := false }

/-- Initial state of the legacy variant. -/
def legacyInit : LegacyState :=
  { session := none, user := none, loading := true, subscribed := true,
    pendingInit := true, pendingFetches := [], nextToken := 0, log := [] }

/-- Run an interleaving of the legacy variant. -/
def runLegacy (es : List Ev) : LegacyState :=
  es.foldl stepLegacy legacyInit

/-- Outcome of a single provider auth call (signInWithPassword or
resetPasswordForEmail): success, an error value, or a thrown exception. -/
inductive CallOutcome
  | ok
  | err (msg : String)
  | thrown

/-- Outcome of the provider signUp call: success carries the optional new
account id (the code checks data.user for null), or an error value, or a
thrown exception. -/
inductive SignUpOutcome
  | ok (usr : Option String)
  | err (msg : String)
  | thrown

/-- Partial profile fields the register screen passes to signUp
(Partial User in the source). -/
structure PartialUser where
  first_name : Option String
  last_name : Option String
  phone : Option String
  role : Option Role
deriving DecidableEq

/-- A row the client inserts into the profile table (shape of the object
literal in src/contexts/AuthContext.tsx lines 91-97: id, email, spread of
the partial user data). -/
structure ProfileInsert where
  id : String
  email : String
  first_name : Option String
  last_name : Option String
  phone : Option String
  role : Option Role
deriving DecidableEq

/-- The raw_user_meta_data object built by the part_004 signUp
(options.data, lines 104-111): role falls back to parent when omitted. -/
structure SignUpMeta where
  first_name : Option String
  last_name : Option String
  phone : Option String
  role : Option Role
deriving DecidableEq

/-- Metadata the part_004 signUp sends to the provider; role is
userData.role or the literal parent. -/
def signUpMetadata (ud : PartialUser) : SignUpMeta :=
  { first_name := ud.first_name, last_name := ud.last_name, phone := ud.phone,
    role := some (ud.role.getD Role.parent) }

/-- Profile row produced by the server-side trigger. -/
structure TriggerProfile where
  id : String
  email : String
  first_name : String
  last_name : String
  phone : Option String
  role : Role
deriving DecidableEq

/-- The handle_new_user trigger function from
src/supabase/migrations/20250831043646_gentle_limit.sql: COALESCE of the
metadata fields, role coalesced to parent. -/
def handle_new_user (uid email : String) (meta : SignUpMeta) : TriggerProfile :=
  { id := uid, email := email, first_name := meta.first_name.getD "",
    last_name := meta.last_name.getD "", phone := meta.phone,
    role := meta.role.getD Role.parent }

/-- signIn from part_004 lines 85-97: calls signInWithPassword and converts
the outcome to an optional error string; it contains no setState call, so
the provider state passes through unchanged. -/
def signIn (st : ProviderState) (_email _password : String) (o : CallOutcome) :
    ProviderState × Option String :=
  match o with
  | CallOutcome.ok => (st, none)
  | CallOutcome.err m => (st, some m)
  | CallOutcome.thrown => (st, some "An unexpected error occurred")

/-- signUp from part_004 lines 99-126: sends metadata, performs no
client-side row insert (the middle component, the list of profile rows the
body inserts, is empty on every path; the profile is created by the
server-side trigger), waits a fixed delay, and returns an optional error. -/
def signUp (st : ProviderState) (_email _password : String) (_ud : PartialUser)
    (o : SignUpOutcome) : ProviderState × List ProfileInsert × Option String :=
  match o with
  | SignUpOutcome.ok _ => (st, [], none)
  | SignUpOutcome.err m => (st, [], some m)
  | SignUpOutcome.thrown => (st, [], some "An unexpected error occurred")

/-- signUp from the legacy variant src/contexts/AuthContext.tsx lines 80-106:
after a successful provider call with a non-null user it inserts the profile
row itself (id, email, spread of userData, with no role fallback), returning
the insert error when the insert fails. -/
def signUpLegacy (email _password : String) (ud : PartialUser) (auth : SignUpOutcome)
    (insertError : Option String) : List ProfileInsert × Option String :=
  match auth with
  | SignUpOutcome.err m => ([], some m)
  | SignUpOutcome.thrown => ([], some "An unexpected error occurred")
  | SignUpOutcome.ok none => ([], none)
  | SignUpOutcome.ok (some uid) =>
      match insertError with
      | some m => ([⟨uid, email, ud.first_name, ud.last_name, ud.phone, ud.role⟩], some m)
      | none => ([⟨uid, email, ud.first_name, ud.last_name, ud.phone, ud.role⟩], none)

/-- signOut from part_004 lines 128-130: fire-and-forget provider call, no
state effect. -/
def signOutOp (st : ProviderState) : ProviderState :=
  st

/-- resetPasswordForEmail from part_004 lines 132-143: provider call
converted to an optional error, no state effect. -/
def resetPasswordForEmail (st : ProviderState) (_email : String) (o : CallOutcome) :
    ProviderState × Option String :=
  match o with
  | CallOutcome.ok => (st, none)
  | CallOutcome.err m => (st, some m)
  | CallOutcome.thrown => (st, some "An unexpected error occurred")

/-- The value the context publishes to consumers (the data part; the four
operation closures are modelled by the top-level operation functions). -/
structure AuthContextValue where
  session : Option Session
  user : Option UserProfile
  loading : Bool
deriving DecidableEq

/-- useAuth from part_004 lines 160-166: throws when used outside an
AuthProvider, otherwise returns the context value. -/
def useAuth (ctx : Option AuthContextValue) : Except String AuthContextValue :=
  match ctx with
  | none => Except.error "useAuth must be used within an AuthProvider"
  | some c => Except.ok c

/-- Baby row restricted to the columns the modelled queries read or filter
on (types/database.ts interface Baby; created_at as an abstract ordered
timestamp). -/
structure BabyRow where
  id : String
  assigned_doctor_id : Option String
  created_at : Nat
deriving DecidableEq

/-- parent_babies association row (types/database.ts interface ParentBaby). -/
structure ParentBabyRow where
  id : String
  parent_id : String
  baby_id : String
deriving DecidableEq

/-- Message row restricted to the filtered columns (interface Message). -/
structure MessageRow where
  id : String
  sender_id : String
  recipient_id : String
  is_read : Bool
  sent_at : Nat
deriving DecidableEq

/-- Appointment row restricted to the filtered columns (interface
Appointment). -/
structure AppointmentRow where
  id : String
  parent_id : String
  appointment_date : Nat
deriving DecidableEq

/-- Insert into a descending-sorted list (model of the row-store order by a
numeric key, descending). -/
def insertByDesc {α : Type} (key : α → Nat) (x : α) : List α → List α
  | [] => [x]
  | y :: ys => if key y ≤ key x then x :: y :: ys else y :: insertByDesc key x ys

/-- Sort a list descending by a numeric key (model of .order with
ascending false). -/
def sortByDesc {α : Type} (key : α → Nat) : List α → List α
  | [] => []
  | x :: xs => insertByDesc key x (sortByDesc key xs)

/-- loadPatients from src/app/(tabs)/patients.tsx lines 46-79: select over
babies ordered by created_at descending; the eq filter on
assigned_doctor_id is added only when the current user role is doctor. -/
def loadPatients (user : Option UserProfile) (db : List BabyRow) : List BabyRow :=
  match user with
  | some u =>
      if u.role = Role.doctor then
        (sortByDesc (fun b => b.created_at) db).filter
          (fun b => b.assigned_doctor_id == some u.id)
      else sortByDesc (fun b => b.created_at) db
  | none => sortByDesc (fun b => b.created_at) db

/-- The babies query of loadReportData in src/unnamed/part_003 lines 47-49:
select star over babies with no filter at all, for every role. -/
def reportBabies (db : List BabyRow) : List BabyRow :=
  db

/-- The new-patients query of loadReportData (part_003 lines 52-59): babies
with created_at at or after the start of the month, again with no role
filter. -/
def reportNewPatients (startOfMonth : Nat) (db : List BabyRow) : List BabyRow :=
  db.filter (fun b => decide (startOfMonth ≤ b.created_at))

/-- The babies query of loadStaffStats in src/app/(tabs)/index.tsx: select
star with no filter; it runs for every non-parent role including doctor. -/
def staffDashboardBabies (db : List BabyRow) : List BabyRow :=
  db

/-- The parent_babies query of loadParentStats in src/app/(tabs)/index.tsx:
eq filter on parent_id. -/
def parentDashboardLinks (u : UserProfile) (links : List ParentBabyRow) :
    List ParentBabyRow :=
  links.filter (fun l => l.parent_id == u.id)

/-- The appointments query of loadParentStats: eq on parent_id plus the
today window. -/
def parentDashboardAppointments (u : UserProfile) (today next : Nat)
    (apps : List AppointmentRow) : List AppointmentRow :=
  apps.filter (fun a =>
    a.parent_id == u.id && decide (today ≤ a.appointment_date) &&
    decide (a.appointment_date < next))

/-- The unread-messages query of loadParentStats: eq on recipient_id and
is_read false. -/
def parentDashboardUnread (u : UserProfile) (msgs : List MessageRow) :
    List MessageRow :=
  msgs.filter (fun m => m.recipient_id == u.id && m.is_read == false)

/-- loadMessages from src/unnamed/part_002: messages filtered to
recipient_id equal to the current user id, ordered by sent_at descending. -/
def loadMessages (u : UserProfile) (msgs : List MessageRow) : List MessageRow :=
  sortByDesc (fun m => m.sent_at) (msgs.filter (fun m => m.recipient_id == u.id))

/-- loadGrowthData from src/app/(tabs)/growth.tsx lines 41-66: only the
parent branch issues a query, over parent_babies filtered by parent_id; any
other role issues none and the screen keeps an empty list. -/
def loadGrowthLinks (u : UserProfile) (links : List ParentBabyRow) :
    List ParentBabyRow :=
  if u.role = Role.parent then links.filter (fun l => l.parent_id == u.id) else []

/-- Sample doctor profile with id d1. -/
def docD : UserProfile :=
  { id := "d1", email := "doc@clinic.org", role := Role.doctor, first_name := "Doc",
    last_name := "One", phone := none, created_at := "2025-01-01", updated_at := "2025-01-01" }

/-- Sample baby row assigned to a different doctor d2. -/
def babyOther : BabyRow :=
  { id := "b1", assigned_doctor_id := some "d2", created_at := 5 }

/-- Sample baby row assigned to the doctor d1. -/
def babyMine : BabyRow :=
  { id := "b2", assigned_doctor_id := some "d1", created_at := 7 }

/-- Sample parent profile for the subject id u1. -/
def p1 : UserProfile :=
  { id := "u1", email := "one@x.com", role := Role.parent, first_name := "One",
    last_name := "User", phone := none, created_at := "2025-01-01", updated_at := "2025-01-01" }

/-- Sample parent profile for the subject id u2. -/
def p2 : UserProfile :=
  { id := "u2", email := "two@x.com", role := Role.parent, first_name := "Two",
    last_name := "User", phone := none, created_at := "2025-01-02", updated_at := "2025-01-02" }

/-- Membership is preserved by descending insertion. -/
theorem mem_insertByDesc {α : Type} (key : α → Nat) (x y : α) (l : List α) :
    y ∈ insertByDesc key x l ↔ y = x ∨ y ∈ l := by
  induction l with
  | nil => simp [insertByDesc]
  | cons z zs ih =>
      simp only [insertByDesc]
      split
      · simp [List.mem_cons]
      · simp only [List.mem_cons, ih]
        tauto

/-- Membership is preserved by the descending sort. -/
theorem mem_sortByDesc {α : Type} (key : α → Nat) (y : α) (l : List α) :
    y ∈ sortByDesc key l ↔ y ∈ l := by
  induction l with
  | nil => simp [sortByDesc]
  | cons z zs ih => simp [sortByDesc, mem_insertByDesc, ih, List.mem_cons]

/-- Once the mounted ref is cleared, no single event changes the published
cells, and the ref stays cleared. -/
theorem step_unmounted (st : ProviderState) (e : Ev) (h : st.mounted = false) :
    published (step st e) = published st ∧ (step st e).mounted = false := by
  cases e with
  | initResolve s =>
      simp only [step]
      split
      · cases s with
        | some sess => simp [published, h]
        | none => simp [published, h]
      · exact ⟨rfl, h⟩
  | notify s =>
      simp only [step]
      simp [published, h]
  | fetchResolve tok res =>
      simp only [step]
      split
      · cases res with
        | ok d => simp [published, h]
        | error msg => simp [published, h]
      · exact ⟨rfl, h⟩
  | unmount => exact ⟨rfl, rfl⟩

/-- Once the mounted ref is cleared, no suffix of events changes the
published cells. -/
theorem foldl_unmounted (es : List Ev) :
    ∀ st : ProviderState, st.mounted = false →
      published (es.foldl step st) = published st := by
  induction es with
  | nil => intro st _; rfl
  | cons e es ih =>
      intro st h
      have h2 := step_unmounted st e h
      calc published ((e :: es).foldl step st)
          = published (es.foldl step (step st e)) := rfl
        _ = published (step st e) := ih (step st e) h2.2
        _ = published st := h2.1

/-- Every event preserves quiescence of the loading flag. -/
theorem step_quiescent (st : ProviderState) (e : Ev) (h : Quiescent st) :
    Quiescent (step st e) := by
  intro hm hp hf
  cases e with
  | initResolve s =>
      by_cases hpi : st.pendingInit
      · cases s with
        | some sess =>
            by_cases hmo : st.mounted <;> simp [step, hpi, hmo] at hf
        | none =>
            by_cases hmo : st.mounted
            · simp [step, hpi, hmo]
            · simp [step, hpi, hmo] at hm
      · simp [step, hpi] at hm hf ⊢
        exact h hm (by simpa using hpi) hf
  | notify s =>
      by_cases hmo : st.mounted
      · cases s with
        | some sess => simp [step, hmo] at hf
        | none => simp [step, hmo]
      · simp [step, hmo] at hm
  | fetchResolve tok res =>
      by_cases hpf : st.pendingFetches.any (fun pr => pr.1 == tok)
      · cases res with
        | ok d =>
            by_cases hmo : st.mounted
            · simp [step, hpf, hmo]
            · simp [step, hpf, hmo] at hm
        | error msg =>
            by_cases hmo : st.mounted
            · simp [step, hpf, hmo]
            · simp [step, hpf, hmo] at hm
      · simp [step, hpf] at hm hp hf ⊢
        exact h hm hp hf
  | unmount =>
      simp [step] at hm

/-- Quiescence is an inductive invariant of whole runs. -/
theorem foldl_quiescent (es : List Ev) :
    ∀ st : ProviderState, Quiescent st → Quiescent (es.foldl step st) := by
  induction es with
  | nil => intro st h; exact h
  | cons e es ih => intro st h; exact ih (step st e) (step_quiescent st e h)

/-- C1 (counterexample): the reports screen issues its babies query with no
role filter, so for a doctor with id d1 it returns a baby assigned to the
different doctor d2 — the claimed scoping does not hold on the reports read
path. -/
theorem report_babies_unscoped_cex :
    docD.role = Role.doctor ∧ babyOther ∈ reportBabies [babyOther] ∧
      babyOther.assigned_doctor_id ≠ some docD.id := by
  decide

/-- C1 (amended): the scoping that does hold per read path: the patients
list filters babies by assigned_doctor_id for a doctor; the parent
dashboard, message inbox and growth screen filter by parent_id or
recipient_id; but the reports screen and the non-parent dashboard return
the babies table unfiltered. -/
theorem query_scoping_amended (u : UserProfile) (db : List BabyRow)
    (links : List ParentBabyRow) (msgs : List MessageRow)
    (apps : List AppointmentRow) (today next : Nat) :
    (∀ b ∈ loadPatients (some { u with role := Role.doctor }) db,
        b.assigned_doctor_id = some u.id) ∧
    (∀ l ∈ parentDashboardLinks u links, l.parent_id = u.id) ∧
    (∀ a ∈ parentDashboardAppointments u today next apps, a.parent_id = u.id) ∧
    (∀ m ∈ parentDashboardUnread u msgs, m.recipient_id = u.id) ∧
    (∀ m ∈ loadMessages u msgs, m.recipient_id = u.id) ∧
    (∀ l ∈ loadGrowthLinks { u with role := Role.parent } links, l.parent_id = u.id) ∧
    reportBabies db = db ∧ staffDashboardBabies db = db := by
  refine ⟨?_, ?_, ?_, ?_, ?_, ?_, rfl, rfl⟩
  · intro b hb
    simp [loadPatients, List.mem_filter, mem_sortByDesc] at hb
    exact hb.2
  · intro l hl
    simp [parentDashboardLinks, List.mem_filter] at hl
    exact hl.2
  · intro a ha
    simp [parentDashboardAppointments, List.mem_filter] at ha
    exact ha.2.1.1
  · intro m hm
    simp [parentDashboardUnread, List.mem_filter] at hm
    exact hm.2.1
  · intro m hm
    simp [loadMessages, mem_sortByDesc, List.mem_filter] at hm
    exact hm.2
  · intro l hl
    simp [loadGrowthLinks, List.mem_filter] at hl
    exact hl.2

/-- C1 (witness): the amended doctor scoping at a concrete database holding
one baby assigned to the doctor d1. -/
theorem query_scoping_amended_witness :
    babyMine ∈ loadPatients (some { docD with role := Role.doctor }) [babyMine] ∧
    babyMine.assigned_doctor_id = some docD.id :=
  ⟨by decide,
    (query_scoping_amended docD [babyMine] [] [] [] 0 0).1 babyMine (by decide)⟩

/-- C2 (failing run): notifications N1 (session u1) then N2 (session u2)
each start a profile fetch; the u2 fetch resolves first with p2, the u1
fetch resolves later with p1, and the provider publishes the stale p1 —
last completion wins, not last notification, because the source tracks no
generation counter. -/
theorem stale_fetch_overwrites :
    (run [Ev.notify (some ⟨"u1"⟩), Ev.notify (some ⟨"u2"⟩),
          Ev.fetchResolve 1 (Except.ok p2), Ev.fetchResolve 0 (Except.ok p1)]).user
      = some p1 ∧
    (run [Ev.notify (some ⟨"u1"⟩), Ev.notify (some ⟨"u2"⟩),
          Ev.fetchResolve 1 (Except.ok p2), Ev.fetchResolve 0 (Except.ok p1)]).session
      = some ⟨"u2"⟩ ∧
    p1 ≠ p2 := by
  decide

/-- C3 (failing run): notification with session u1 starts a profile fetch;
a sign-out notification then clears session and user; the stale fetch
resolves afterwards and publishes p1, reaching a state with session none
and user non-null — the claimed invariant fails on the code. -/
theorem null_session_nonnull_user :
    (run [Ev.notify (some ⟨"u1"⟩), Ev.notify none,
          Ev.fetchResolve 0 (Except.ok p1)]).session = none ∧
    (run [Ev.notify (some ⟨"u1"⟩), Ev.notify none,
          Ev.fetchResolve 0 (Except.ok p1)]).user = some p1 := by
  decide

/-- C4 (counterexample): in the unguarded variant
(src/contexts/AuthContext.tsx) the initial getSession continuation still
writes the published session after the cleanup ran. -/
theorem legacy_teardown_mutation_cex :
    (runLegacy [Ev.unmount]).session = none ∧
    (runLegacy [Ev.unmount, Ev.initResolve (some ⟨"u1"⟩)]).session = some ⟨"u1"⟩ := by
  decide

/-- C4 (amended): in the guarded variant (src/unnamed/part_004), after the
unmount event no interleaving of in-flight continuations changes the
published session, user or loading cells. -/
theorem teardown_frame (st : ProviderState) (es : List Ev) :
    published (es.foldl step (step st Ev.unmount)) = published (step st Ev.unmount) :=
  foldl_unmounted es (step st Ev.unmount) rfl

/-- C5 (counterexample): a profile p1 is published for session u1; a new
notification for session u2 starts a fetch that fails; the final state
keeps user = p1 rather than the claimed user = null. -/
theorem stale_profile_on_failed_fetch_cex :
    (run [Ev.notify (some ⟨"u1"⟩), Ev.fetchResolve 0 (Except.ok p1),
          Ev.notify (some ⟨"u2"⟩), Ev.fetchResolve 1 (Except.error "network")]).user
      = some p1 ∧
    (run [Ev.notify (some ⟨"u1"⟩), Ev.fetchResolve 0 (Except.ok p1),
          Ev.notify (some ⟨"u2"⟩), Ev.fetchResolve 1 (Except.error "network")]).session
      = some ⟨"u2"⟩ ∧
    (run [Ev.notify (some ⟨"u1"⟩), Ev.fetchResolve 0 (Except.ok p1),
          Ev.notify (some ⟨"u2"⟩), Ev.fetchResolve 1 (Except.error "network")]).loading
      = false ∧
    some p1 ≠ (none : Option UserProfile) := by
  decide

/-- C5 (amended): when a pending profile fetch fails while mounted, the
error is logged, loading is cleared, the session cell is untouched and the
user cell is left unchanged (null only when nothing had been published). -/
theorem fetch_failure_degrades (st : ProviderState) (tok : Nat) (msg : String)
    (hm : st.mounted = true)
    (hp : st.pendingFetches.any (fun pr => pr.1 == tok) = true) :
    (step st (Ev.fetchResolve tok (Except.error msg))).session = st.session ∧
    (step st (Ev.fetchResolve tok (Except.error msg))).user = st.user ∧
    (step st (Ev.fetchResolve tok (Except.error msg))).loading = false ∧
    (step st (Ev.fetchResolve tok (Except.error msg))).log = msg :: st.log := by
  simp [step, hp, hm]

/-- C5 (witness): the amended failure behaviour at a concrete state with a
pending fetch for session u1. -/
theorem fetch_failure_degrades_witness :
    ((run [Ev.notify (some ⟨"u1"⟩)]).mounted = true ∧
     (run [Ev.notify (some ⟨"u1"⟩)]).pendingFetches.any (fun pr => pr.1 == 0) = true) ∧
    ((step (run [Ev.notify (some ⟨"u1"⟩)]) (Ev.fetchResolve 0 (Except.error "network"))).session
        = (run [Ev.notify (some ⟨"u1"⟩)]).session ∧
     (step (run [Ev.notify (some ⟨"u1"⟩)]) (Ev.fetchResolve 0 (Except.error "network"))).user
        = (run [Ev.notify (some ⟨"u1"⟩)]).user ∧
     (step (run [Ev.notify (some ⟨"u1"⟩)]) (Ev.fetchResolve 0 (Except.error "network"))).loading
        = false ∧
     (step (run [Ev.notify (some ⟨"u1"⟩)]) (Ev.fetchResolve 0 (Except.error "network"))).log
        = "network" :: (run [Ev.notify (some ⟨"u1"⟩)]).log) :=
  ⟨⟨by decide, by decide⟩,
    fetch_failure_degrades (run [Ev.notify (some ⟨"u1"⟩)]) 0 "network"
      (by decide) (by decide)⟩

/-- C6: none of the four operations writes the provider state, and a signIn
whose provider call errors returns exactly that error with the state
unchanged. -/
theorem operations_frame (st : ProviderState) (email password m : String)
    (ud : PartialUser) (o : CallOutcome) (so : SignUpOutcome) :
    (signIn st email password o).1 = st ∧
    (signUp st email password ud so).1 = st ∧
    signOutOp st = st ∧
    (resetPasswordForEmail st email o).1 = st ∧
    signIn st email password (CallOutcome.err m) = (st, some m) := by
  refine ⟨?_, ?_, rfl, ?_, rfl⟩
  · cases o <;> rfl
  · cases so <;> rfl
  · cases o <;> rfl

/-- C7: the loading flag is quiescent: in every run of the provider in
which all started asynchronous work has settled (no pending getSession
resolution and no pending profile fetch) and the provider is still mounted,
loading is false — no execution path leaves loading permanently true. -/
theorem loading_quiescence (es : List Ev) (hm : (run es).mounted = true)
    (hp : (run es).pendingInit = false) (hf : (run es).pendingFetches = []) :
    (run es).loading = false := by
  have hq : Quiescent (run es) := by
    have h0 : Quiescent initState := by
      intro _ hpi _
      simp [initState] at hpi
    exact foldl_quiescent es initState h0
  exact hq hm hp hf

/-- C7 (witness): the run where getSession resolves to null has settled and
shows loading false. -/
theorem loading_quiescence_witness :
    ((run [Ev.initResolve none]).mounted = true ∧
     (run [Ev.initResolve none]).pendingInit = false ∧
     (run [Ev.initResolve none]).pendingFetches = []) ∧
    (run [Ev.initResolve none]).loading = false :=
  ⟨⟨by decide, by decide, by decide⟩,
    loading_quiescence [Ev.initResolve none] (by decide) (by decide) (by decide)⟩

/-- C8 (counterexample): the signUp of src/contexts/AuthContext.tsx inserts
the profile row itself after a successful provider call, and supplies no
role (no parent default) — refuting the claim that the client never inserts
into the profile table. -/
theorem signUp_client_insert_cex :
    (signUpLegacy "p@x.com" "pw" ⟨none, none, none, none⟩
        (SignUpOutcome.ok (some "u9")) none).1
      = [⟨"u9", "p@x.com", none, none, none, none⟩] ∧
    ([⟨"u9", "p@x.com", none, none, none, none⟩] : List ProfileInsert) ≠ [] := by
  decide

/-- C8 (amended): the part_004 signUp performs no client-side profile
insert on any path; the metadata it sends carries role parent whenever the
caller omits the role, and the migration trigger creates the profile row
with that same parent fallback. -/
theorem signUp_trigger_amended (st : ProviderState) (uid email password : String)
    (ud : PartialUser) (so : SignUpOutcome) :
    (signUp st email password ud so).2.1 = [] ∧
    (signUpMetadata ud).role = some (ud.role.getD Role.parent) ∧
    (handle_new_user uid email (signUpMetadata ud)).role = ud.role.getD Role.parent := by
  refine ⟨?_, rfl, rfl⟩
  cases so <;> rfl

/-- C9: when the initial getSession resolves to null and nothing else
happens, the provider reaches session null, user null, loading false. -/
theorem no_prior_session_scenario :
    (run [Ev.initResolve none]).session = none ∧
    (run [Ev.initResolve none]).user = none ∧
    (run [Ev.initResolve none]).loading = false := by
  decide

/-- C10: useAuth throws the fixed error when the context is absent and
returns the published context value otherwise. -/
theorem useAuth_spec :
    useAuth none = Except.error "useAuth must be used within an AuthProvider" ∧
    ∀ c : AuthContextValue, useAuth (some c) = Except.ok c :=
  ⟨rfl, fun _ => rfl⟩

end Clinic
